import Mathlib

/-!
Verification of the inference-serving core of `scripts/local_model_server.py`:
device/precision selection, prompt formatting, the chat-completions request
handler, and response assembly with token accounting.

The Python source is shallowly embedded: torch dtypes and devices become
inductive types, the hardware probes (`torch.cuda.is_available`,
`torch.cuda.is_bf16_supported`) become a capability record, the tokenizer and
model runtime become records of functions supplied by the caller, Python's
process-seeded `hash` builtin becomes an explicit `String → Int` argument,
and the FastAPI handler becomes a pure function returning either an
`HTTPError` (status code plus detail, as raised by `HTTPException`) or a
`ChatCompletionResponse`, together with the list of calls it issued to the
model runtime.
-/

/-- Torch dtypes that `determine_dtype_and_device` can return. -/
inductive Dtype
  | bfloat16
  | float16
  | float32
  deriving DecidableEq, Repr

/-- Torch devices that `determine_dtype_and_device` can return. -/
inductive Device
  | cuda
  | cpu
  deriving DecidableEq, Repr

/-- The two hardware probes the selector reads:
`torch.cuda.is_available()` and `torch.cuda.is_bf16_supported()`. -/
structure HardwareCapabilities where
  cuda_is_available : Bool
  cuda_is_bf16_supported : Bool
  deriving DecidableEq, Repr

/-- Embedding of `determine_dtype_and_device` (local_model_server.py:62-77):
bf16 on CUDA when supported, else fp16 on CUDA, else fp32 on CPU. -/
def determine_dtype_and_device (caps : HardwareCapabilities) : Dtype × Device :=
  if caps.cuda_is_available then
    if caps.cuda_is_bf16_supported then
      (Dtype.bfloat16, Device.cuda)
    else
      (Dtype.float16, Device.cuda)
  else
    (Dtype.float32, Device.cpu)

/-- The spec's precision tiers (§3, PrecisionDevicePlan). -/
inductive Precision
  | LOW_PRECISION_A
  | LOW_PRECISION_B
  | FULL_PRECISION
  deriving DecidableEq, Repr

/-- The spec's device kinds (§3, PrecisionDevicePlan). -/
inductive DeviceKind
  | ACCELERATOR
  | HOST
  deriving DecidableEq, Repr

/-- Glossary mapping from concrete dtypes to the spec's precision tiers:
bfloat16 is the preferred reduced-precision tier A, float16 the fallback
tier B, float32 full precision. -/
def precisionOfDtype : Dtype → Precision
  | Dtype.bfloat16 => Precision.LOW_PRECISION_A
  | Dtype.float16 => Precision.LOW_PRECISION_B
  | Dtype.float32 => Precision.FULL_PRECISION

/-- Glossary mapping from concrete devices to the spec's device kinds. -/
def deviceKindOfDevice : Device → DeviceKind
  | Device.cuda => DeviceKind.ACCELERATOR
  | Device.cpu => DeviceKind.HOST

/-- The selector's output expressed in the spec's vocabulary. -/
def selectedPlan (caps : HardwareCapabilities) : Precision × DeviceKind :=
  let (d, dev) := determine_dtype_and_device caps
  (precisionOfDtype d, deviceKindOfDevice dev)

/-- Message roles. The data model restricts `role` to this enum
(spec §3, ChatMessage). -/
inductive Role
  | system
  | user
  | assistant
  deriving DecidableEq, Repr

/-- Embedding of the pydantic `Message` model (local_model_server.py:37-39). -/
structure Message where
  role : Role
  content : String
  deriving DecidableEq, Repr

/-- Embedding of the pydantic `ChatCompletionRequest` model
(local_model_server.py:42-47). Field defaults mirror the pydantic defaults
applied when a field is omitted from the request body. -/
structure ChatCompletionRequest where
  model : Option String := none
  messages : List Message
  stream : Bool := false
  max_tokens : Option Int := none
  temperature : ℚ := 7/10
  deriving DecidableEq, Repr

/-- Embedding of the pydantic `ChatCompletionChoice` model
(local_model_server.py:50-53). -/
structure ChatCompletionChoice where
  index : Int
  message : Message
  finish_reason : String
  deriving DecidableEq, Repr

/-- The `usage` dictionary of the response (local_model_server.py:168-172). -/
structure Usage where
  prompt_tokens : Int
  completion_tokens : Int
  total_tokens : Int
  deriving DecidableEq, Repr

/-- Embedding of the pydantic `ChatCompletionResponse` model
(local_model_server.py:56-59). -/
structure ChatCompletionResponse where
  id : String
  choices : List ChatCompletionChoice
  usage : Usage
  deriving DecidableEq, Repr

/-- The label each role contributes to the prompt
(local_model_server.py:128-133). -/
def roleLabel : Role → String
  | Role.system => "System"
  | Role.user => "User"
  | Role.assistant => "Assistant"

/-- One step of the prompt-building loop: append one message's line. -/
def promptStep (acc : String) (msg : Message) : String :=
  acc ++ (roleLabel msg.role ++ ": " ++ msg.content ++ "\n")

/-- Embedding of the prompt-construction loop of `chat_completions`
(local_model_server.py:126-134): one `"<Label>: <content>\n"` line per
message accumulated in input order, then the bare `"Assistant:"` cue. -/
def formatPrompt (messages : List Message) : String :=
  (messages.foldl promptStep "") ++ "Assistant:"

/-- The tokenizer handle as the handler uses it: `tokenize` yields the
`input_ids` row of `tokenizer(prompt, ...)`, `decode` is
`tokenizer.decode(·, skip_special_tokens=True)`, plus the two token ids
the handler forwards to `generate`. -/
structure Tokenizer where
  tokenize : String → List Nat
  decode : List Nat → String
  pad_token_id : Nat
  eos_token_id : Nat

/-- The keyword arguments passed to `model.generate`
(local_model_server.py:143-150), besides the input tensors. -/
structure GenerateParams where
  max_new_tokens : Int
  temperature : ℚ
  do_sample : Bool
  pad_token_id : Nat
  eos_token_id : Nat
  deriving DecidableEq, Repr

/-- The model handle: `generate` returns the row `outputs[0]` of the output
tensor, i.e. the full output token sequence. -/
structure Model where
  generate : List Nat → GenerateParams → List Nat

/-- Embedding of `max_new_tokens = request.max_tokens or 512`
(local_model_server.py:141). Python's `or` substitutes 512 for the falsy
values `None` and `0`. -/
def resolve_max_new_tokens (max_tokens : Option Int) : Int :=
  match max_tokens with
  | none => 512
  | some n => if n = 0 then 512 else n

/-- The `GenerateParams` the handler builds for `model.generate`
(local_model_server.py:141-150). -/
def build_generate_params (request : ChatCompletionRequest) (tok : Tokenizer) :
    GenerateParams :=
  { max_new_tokens := resolve_max_new_tokens request.max_tokens
    temperature := request.temperature
    do_sample := decide (request.temperature > 0)
    pad_token_id := tok.pad_token_id
    eos_token_id := tok.eos_token_id }

/-- A call the handler issues to the model runtime. -/
inductive RuntimeCall
  | tokenize (prompt : String)
  | generate (input_ids : List Nat) (params : GenerateParams)
  deriving DecidableEq, Repr

/-- An `HTTPException` raised by the handler. -/
structure HTTPError where
  status_code : Nat
  detail : String
  deriving DecidableEq, Repr

/-- Embedding of the `chat_completions` endpoint handler
(local_model_server.py:118-177). The globals `model` and `tokenizer` are
passed explicitly (`none` = not loaded), and Python's process-seeded string
`hash` builtin is passed as `hashString`. Returns the HTTP outcome paired
with the list of calls issued to the model runtime. -/
def chat_completions (hashString : String → Int)
    (model : Option Model) (tokenizer : Option Tokenizer)
    (request : ChatCompletionRequest) :
    Except HTTPError ChatCompletionResponse × List RuntimeCall :=
  match model, tokenizer with
  | some m, some tok =>
    let prompt := formatPrompt request.messages
    let input_ids := tok.tokenize prompt
    let params := build_generate_params request tok
    let outputs := m.generate input_ids params
    let generated_text := tok.decode (outputs.drop input_ids.length)
    (Except.ok
      { id := "local-" ++ toString (hashString prompt)
        choices :=
          [{ index := 0
             message := { role := Role.assistant, content := generated_text }
             finish_reason := "stop" }]
        usage :=
          { prompt_tokens := (input_ids.length : Int)
            completion_tokens := (outputs.length : Int) - input_ids.length
            total_tokens := (outputs.length : Int) } },
     [RuntimeCall.tokenize prompt, RuntimeCall.generate input_ids params])
  | _, _ =>
    (Except.error { status_code := 503, detail := "Model not loaded" }, [])

/-- A stub tokenizer used for concrete evaluations. -/
def stubTokenizer : Tokenizer :=
  { tokenize := fun _ => [1, 2, 3]
    decode := fun l => toString l
    pad_token_id := 0
    eos_token_id := 0 }

/-- A stub model runtime that echoes the prompt tokens and appends the two
generated tokens 7 and 8. -/
def stubModel : Model :=
  { generate := fun ids _ => ids ++ [7, 8] }

/-- A stand-in for Python's process-seeded string hash: any fixed pure
function of the string models hashing within one process. -/
def stubHash : String → Int := fun s => (s.length : Int)

/-- `Modelled from the spec:` the Prompt Formatter's output described in
§4.3 — one `"<RoleLabel>: <content>"` line per message, in input order,
each with a trailing newline (the final `"Assistant:"` cue is appended
separately). Used to compare against the embedded loop. -/
def transcript : List Message → String
  | [] => ""
  | m :: ms => (roleLabel m.role ++ ": " ++ m.content ++ "\n") ++ transcript ms

theorem string_append_assoc (a b c : String) : a ++ b ++ c = a ++ (b ++ c) := by
  apply String.ext
  simp [String.data_append, List.append_assoc]

theorem promptStep_foldl (msgs : List Message) (acc : String) :
    msgs.foldl promptStep acc = acc ++ transcript msgs := by
  induction msgs generalizing acc with
  | nil => simp [transcript, String.append_empty]
  | cons m ms ih =>
    simp only [List.foldl_cons, transcript, promptStep, ih, string_append_assoc]

/-- C1: for every HardwareCapabilities value, the selector is total and
returns, in the spec's vocabulary, (LOW_PRECISION_A, ACCELERATOR) when both
flags hold, (LOW_PRECISION_B, ACCELERATOR) when only the accelerator is
present, and (FULL_PRECISION, HOST) when no accelerator is present — the
branches checked in that order with the first match winning. -/
theorem selector_decision_table :
    selectedPlan ⟨true, true⟩ = (Precision.LOW_PRECISION_A, DeviceKind.ACCELERATOR) ∧
    selectedPlan ⟨true, false⟩ = (Precision.LOW_PRECISION_B, DeviceKind.ACCELERATOR) ∧
    selectedPlan ⟨false, true⟩ = (Precision.FULL_PRECISION, DeviceKind.HOST) ∧
    selectedPlan ⟨false, false⟩ = (Precision.FULL_PRECISION, DeviceKind.HOST) := by
  decide

/-- C2: the Prompt Formatter emits one `"<RoleLabel>: <content>"` line per
message, in input order, each with a trailing newline, then the bare
`"Assistant:"` cue with no trailing newline; it is deterministic, and on
`[{system,"S"},{user,"U"}]` yields `"System: S\nUser: U\nAssistant:"`. -/
theorem formatter_emits_transcript :
    (∀ msgs : List Message, formatPrompt msgs = transcript msgs ++ "Assistant:") ∧
    (∀ a b : List Message, a = b → formatPrompt a = formatPrompt b) ∧
    formatPrompt [⟨Role.system, "S"⟩, ⟨Role.user, "U"⟩] =
      "System: S\nUser: U\nAssistant:" := by
  refine ⟨fun msgs => ?_, fun a b hab => by rw [hab], by decide⟩
  rw [formatPrompt, promptStep_foldl]
  apply String.ext
  simp [String.data_append]

/-- Witness for C2's determinism hypothesis at a concrete input. -/
theorem formatter_emits_transcript_witness :
    formatPrompt [⟨Role.user, "hi"⟩] = formatPrompt [⟨Role.user, "hi"⟩] :=
  formatter_emits_transcript.2.1 [⟨Role.user, "hi"⟩] [⟨Role.user, "hi"⟩] rfl

/-- C4: every assembled response satisfies
`totalTokens = promptTokens + completionTokens`. -/
theorem usage_total_is_sum (hashString : String → Int) (model : Option Model)
    (tokenizer : Option Tokenizer) (request : ChatCompletionRequest)
    (resp : ChatCompletionResponse)
    (h : (chat_completions hashString model tokenizer request).1 = Except.ok resp) :
    resp.usage.total_tokens = resp.usage.prompt_tokens + resp.usage.completion_tokens := by
  cases model with
  | none => simp [chat_completions] at h
  | some m =>
    cases tokenizer with
    | none => simp [chat_completions] at h
    | some tok =>
      simp only [chat_completions, Except.ok.injEq] at h
      subst h
      simp

/-- Witness for C4 at a concrete stubbed runtime. -/
theorem usage_total_is_sum_witness :
    ({ id := "local-18",
       choices := [⟨0, ⟨Role.assistant, "[7, 8]"⟩, "stop"⟩],
       usage := ⟨3, 2, 5⟩ } : ChatCompletionResponse).usage.total_tokens =
      ({ id := "local-18",
         choices := [⟨0, ⟨Role.assistant, "[7, 8]"⟩, "stop"⟩],
         usage := ⟨3, 2, 5⟩ } : ChatCompletionResponse).usage.prompt_tokens +
      ({ id := "local-18",
         choices := [⟨0, ⟨Role.assistant, "[7, 8]"⟩, "stop"⟩],
         usage := ⟨3, 2, 5⟩ } : ChatCompletionResponse).usage.completion_tokens :=
  usage_total_is_sum stubHash (some stubModel) (some stubTokenizer)
    { messages := [⟨Role.user, "U"⟩] } _ rfl

/-- C5: a request handled while no model/tokenizer is loaded yields the
503 error with detail "Model not loaded", and no call reaches the model
runtime (the issued-call list is empty). -/
theorem unloaded_rejected_without_runtime_calls (hashString : String → Int)
    (request : ChatCompletionRequest) :
    chat_completions hashString none none request =
      (Except.error ⟨503, "Model not loaded"⟩, []) := rfl

/-- C3: when the runtime returns exactly the echoed prompt tokens followed
by the generated tokens, the handler decodes the completion from exactly
the tokens after the first `promptTokenCount` — never including the echoed
prompt — and usage reports `promptTokens = N` and `completionTokens = K`. -/
theorem completion_excludes_echoed_prompt (hashString : String → Int) (m : Model)
    (tok : Tokenizer) (request : ChatCompletionRequest) (gen : List Nat)
    (hgen : m.generate (tok.tokenize (formatPrompt request.messages))
              (build_generate_params request tok) =
            tok.tokenize (formatPrompt request.messages) ++ gen) :
    (chat_completions hashString (some m) (some tok) request).1 =
      Except.ok
        { id := "local-" ++ toString (hashString (formatPrompt request.messages))
          choices :=
            [{ index := 0
               message := { role := Role.assistant, content := tok.decode gen }
               finish_reason := "stop" }]
          usage :=
            { prompt_tokens :=
                ((tok.tokenize (formatPrompt request.messages)).length : Int)
              completion_tokens := (gen.length : Int)
              total_tokens :=
                ((tok.tokenize (formatPrompt request.messages)).length : Int) +
                  gen.length } } := by
  simp only [chat_completions, hgen, List.drop_left, List.length_append,
    Except.ok.injEq, ChatCompletionResponse.mk.injEq, Usage.mk.injEq]
  simp

/-- Witness for C3: the stub runtime echoes its 3 prompt tokens and appends
[7, 8]; the completion decodes only [7, 8] and usage is (3, 2). -/
theorem completion_excludes_echoed_prompt_witness :
    (stubModel.generate (stubTokenizer.tokenize (formatPrompt [⟨Role.user, "U"⟩]))
        (build_generate_params { messages := [⟨Role.user, "U"⟩] } stubTokenizer) =
      stubTokenizer.tokenize (formatPrompt [⟨Role.user, "U"⟩]) ++ [7, 8]) ∧
    (chat_completions stubHash (some stubModel) (some stubTokenizer)
        { messages := [⟨Role.user, "U"⟩] }).1 =
      Except.ok
        { id := "local-" ++ toString (stubHash (formatPrompt [⟨Role.user, "U"⟩]))
          choices :=
            [{ index := 0
               message := { role := Role.assistant
                            content := stubTokenizer.decode [7, 8] }
               finish_reason := "stop" }]
          usage :=
            { prompt_tokens :=
                ((stubTokenizer.tokenize (formatPrompt [⟨Role.user, "U"⟩])).length : Int)
              completion_tokens := ((2 : Nat) : Int)
              total_tokens :=
                ((stubTokenizer.tokenize
                    (formatPrompt [⟨Role.user, "U"⟩])).length : Int) + (2 : Nat) } } :=
  ⟨rfl, completion_excludes_echoed_prompt stubHash stubModel stubTokenizer
    { messages := [⟨Role.user, "U"⟩] } [7, 8] rfl⟩

/-- C6: the sampling flag passed to the runtime's generate call is
`doSample = (temperature > 0)`, with the temperature passed through:
temperature 0 gives greedy decoding, 0.8 gives sampling, and a request that
omits temperature defaults to 0.7 and hence samples. -/
theorem do_sample_iff_positive_temperature (hashString : String → Int) (m : Model)
    (tok : Tokenizer) (request : ChatCompletionRequest) :
    ((chat_completions hashString (some m) (some tok) request).2 =
      [RuntimeCall.tokenize (formatPrompt request.messages),
       RuntimeCall.generate (tok.tokenize (formatPrompt request.messages))
         (build_generate_params request tok)]) ∧
    (build_generate_params request tok).do_sample = decide (request.temperature > 0) ∧
    (build_generate_params request tok).temperature = request.temperature ∧
    (build_generate_params { request with temperature := 0 } tok).do_sample = false ∧
    (build_generate_params { request with temperature := 8/10 } tok).do_sample = true ∧
    ({ messages := request.messages } : ChatCompletionRequest).temperature = 7/10 ∧
    (build_generate_params { messages := request.messages } tok).do_sample = true := by
  refine ⟨rfl, rfl, rfl, ?_, ?_, rfl, ?_⟩ <;> simp [build_generate_params]

/-- C10: a request with `max_tokens = 0` resolves `maxNewTokens` to the
default 512 — exactly as if `max_tokens` were absent — and generation
proceeds: the runtime's generate call is issued with `max_new_tokens = 512`. -/
theorem max_tokens_zero_defaults_to_512 (hashString : String → Int) (m : Model)
    (tok : Tokenizer) (request : ChatCompletionRequest)
    (h0 : request.max_tokens = some 0) :
    resolve_max_new_tokens request.max_tokens = 512 ∧
    build_generate_params request tok =
      build_generate_params { request with max_tokens := none } tok ∧
    (chat_completions hashString (some m) (some tok) request).2 =
      [RuntimeCall.tokenize (formatPrompt request.messages),
       RuntimeCall.generate (tok.tokenize (formatPrompt request.messages))
         { max_new_tokens := 512
           temperature := request.temperature
           do_sample := decide (request.temperature > 0)
           pad_token_id := tok.pad_token_id
           eos_token_id := tok.eos_token_id }] := by
  refine ⟨by simp [resolve_max_new_tokens, h0], ?_, ?_⟩ <;>
    simp [build_generate_params, resolve_max_new_tokens, h0, chat_completions]

/-- Witness for C10 at a concrete request with `max_tokens = 0`. -/
theorem max_tokens_zero_defaults_to_512_witness :
    resolve_max_new_tokens
      ({ messages := [⟨Role.user, "U"⟩], max_tokens := some 0 } :
        ChatCompletionRequest).max_tokens = 512 ∧
    build_generate_params
        { messages := [⟨Role.user, "U"⟩], max_tokens := some 0 } stubTokenizer =
      build_generate_params
        { ({ messages := [⟨Role.user, "U"⟩], max_tokens := some 0 } :
            ChatCompletionRequest) with max_tokens := none } stubTokenizer ∧
    (chat_completions stubHash (some stubModel) (some stubTokenizer)
        { messages := [⟨Role.user, "U"⟩], max_tokens := some 0 }).2 =
      [RuntimeCall.tokenize (formatPrompt [⟨Role.user, "U"⟩]),
       RuntimeCall.generate (stubTokenizer.tokenize (formatPrompt [⟨Role.user, "U"⟩]))
         { max_new_tokens := 512
           temperature := (7 : ℚ)/10
           do_sample := decide ((7 : ℚ)/10 > 0)
           pad_token_id := stubTokenizer.pad_token_id
           eos_token_id := stubTokenizer.eos_token_id }] :=
  max_tokens_zero_defaults_to_512 stubHash stubModel stubTokenizer
    { messages := [⟨Role.user, "U"⟩], max_tokens := some 0 } rfl

/-- C7 counterexample: with a loaded stub runtime, a request with an empty
messages list is not rejected — the handler returns a 200-style success and
issues both a tokenize and a generate call to the model runtime. -/
theorem empty_messages_not_rejected :
    chat_completions stubHash (some stubModel) (some stubTokenizer)
        { messages := [] } =
      (Except.ok
        { id := "local-10"
          choices := [{ index := 0
                        message := { role := Role.assistant, content := "[7, 8]" }
                        finish_reason := "stop" }]
          usage := { prompt_tokens := 3, completion_tokens := 2, total_tokens := 5 } },
       [RuntimeCall.tokenize "Assistant:",
        RuntimeCall.generate [1, 2, 3]
          { max_new_tokens := 512
            temperature := 7/10
            do_sample := decide ((7 : ℚ)/10 > 0)
            pad_token_id := 0
            eos_token_id := 0 }]) := rfl

/-- C7 amended: the handler performs no emptiness validation — a request
with an empty messages sequence is served: the formatted prompt is the bare
"Assistant:" cue, the handler succeeds, and tokenize and generate calls
reach the model runtime. -/
theorem empty_messages_generates (hashString : String → Int) (m : Model)
    (tok : Tokenizer) (request : ChatCompletionRequest)
    (hempty : request.messages = []) :
    formatPrompt request.messages = "Assistant:" ∧
    ((chat_completions hashString (some m) (some tok) request).1).isOk = true ∧
    (chat_completions hashString (some m) (some tok) request).2 =
      [RuntimeCall.tokenize "Assistant:",
       RuntimeCall.generate (tok.tokenize "Assistant:")
         (build_generate_params request tok)] := by
  have hfmt : formatPrompt ([] : List Message) = "Assistant:" := rfl
  refine ⟨by rw [hempty]; exact hfmt, ?_, ?_⟩ <;>
    simp [chat_completions, hempty, hfmt, Except.isOk, Except.toBool]

/-- Witness for C7's amended claim at a concrete empty request. -/
theorem empty_messages_generates_witness :
    formatPrompt ({ messages := [] } : ChatCompletionRequest).messages =
      "Assistant:" ∧
    ((chat_completions stubHash (some stubModel) (some stubTokenizer)
        { messages := [] }).1).isOk = true ∧
    (chat_completions stubHash (some stubModel) (some stubTokenizer)
        { messages := [] }).2 =
      [RuntimeCall.tokenize "Assistant:",
       RuntimeCall.generate (stubTokenizer.tokenize "Assistant:")
         (build_generate_params { messages := [] } stubTokenizer)] :=
  empty_messages_generates stubHash stubModel stubTokenizer { messages := [] } rfl

/-- C8 counterexample: with a loaded stub runtime, a request with
`stream = true` is not rejected at the boundary — it is served a complete
non-streaming response. -/
theorem stream_true_served :
    chat_completions stubHash (some stubModel) (some stubTokenizer)
        { messages := [⟨Role.user, "U"⟩], stream := true } =
      (Except.ok
        { id := "local-18"
          choices := [{ index := 0
                        message := { role := Role.assistant, content := "[7, 8]" }
                        finish_reason := "stop" }]
          usage := { prompt_tokens := 3, completion_tokens := 2, total_tokens := 5 } },
       [RuntimeCall.tokenize "User: U\nAssistant:",
        RuntimeCall.generate [1, 2, 3]
          { max_new_tokens := 512
            temperature := 7/10
            do_sample := decide ((7 : ℚ)/10 > 0)
            pad_token_id := 0
            eos_token_id := 0 }]) := rfl

/-- C8 amended: the handler never reads the stream flag — a request with
`stream = true` is handled exactly like the same request with
`stream = false`, yielding a non-streaming response. -/
theorem stream_flag_ignored (hashString : String → Int) (model : Option Model)
    (tokenizer : Option Tokenizer) (request : ChatCompletionRequest) (b : Bool) :
    chat_completions hashString model tokenizer { request with stream := b } =
      chat_completions hashString model tokenizer request := by
  cases model <;> cases tokenizer <;> rfl

/-- C9 counterexample: two successfully handled requests with identical
message sequences (differing only in temperature) receive the same
response id, because the id is derived from the prompt content. -/
theorem identical_messages_same_id :
    Except.map ChatCompletionResponse.id
        (chat_completions stubHash (some stubModel) (some stubTokenizer)
          { messages := [⟨Role.user, "U"⟩], temperature := 0 }).1 =
      Except.ok "local-18" ∧
    Except.map ChatCompletionResponse.id
        (chat_completions stubHash (some stubModel) (some stubTokenizer)
          { messages := [⟨Role.user, "U"⟩], temperature := 8/10 }).1 =
      Except.ok "local-18" := ⟨rfl, rfl⟩

/-- C9 amended: the response id is derived deterministically from the
prompt content as `"local-" + str(hash(prompt))`; any two successfully
handled requests with identical message sequences (in the same process,
i.e. under the same string-hash function) receive identical ids. -/
theorem id_derived_from_prompt (hashString : String → Int) (m1 m2 : Model)
    (tok1 tok2 : Tokenizer) (r1 r2 : ChatCompletionRequest)
    (hmsg : r1.messages = r2.messages)
    (resp1 resp2 : ChatCompletionResponse)
    (h1 : (chat_completions hashString (some m1) (some tok1) r1).1 = Except.ok resp1)
    (h2 : (chat_completions hashString (some m2) (some tok2) r2).1 = Except.ok resp2) :
    resp1.id = "local-" ++ toString (hashString (formatPrompt r1.messages)) ∧
    resp1.id = resp2.id := by
  simp only [chat_completions, Except.ok.injEq] at h1 h2
  subst h1
  subst h2
  exact ⟨rfl, by simp [hmsg]⟩

/-- Witness for C9's amended claim: two stub requests with the same
messages but different temperatures yield the id "local-18" twice. -/
theorem id_derived_from_prompt_witness :
    ({ id := "local-18"
       choices := [{ index := 0
                     message := { role := Role.assistant, content := "[7, 8]" }
                     finish_reason := "stop" }]
       usage := ⟨3, 2, 5⟩ } : ChatCompletionResponse).id =
      "local-" ++ toString (stubHash (formatPrompt [⟨Role.user, "U"⟩])) ∧
    ({ id := "local-18"
       choices := [{ index := 0
                     message := { role := Role.assistant, content := "[7, 8]" }
                     finish_reason := "stop" }]
       usage := ⟨3, 2, 5⟩ } : ChatCompletionResponse).id =
      ({ id := "local-18"
         choices := [{ index := 0
                       message := { role := Role.assistant, content := "[7, 8]" }
                       finish_reason := "stop" }]
         usage := ⟨3, 2, 5⟩ } : ChatCompletionResponse).id :=
  id_derived_from_prompt stubHash stubModel stubModel stubTokenizer stubTokenizer
    { messages := [⟨Role.user, "U"⟩], temperature := 0 }
    { messages := [⟨Role.user, "U"⟩], temperature := 8/10 } rfl
    { id := "local-18"
      choices := [{ index := 0
                    message := { role := Role.assistant, content := "[7, 8]" }
                    finish_reason := "stop" }]
      usage := ⟨3, 2, 5⟩ }
    { id := "local-18"
      choices := [{ index := 0
                    message := { role := Role.assistant, content := "[7, 8]" }
                    finish_reason := "stop" }]
      usage := ⟨3, 2, 5⟩ } rfl rfl
